import Mathlib

/-!
Shallow embedding of the transaction-orchestration core of the
`pow-vending-machine` repository (Python): the `VendingMachine` state machine
of `src/vending_machine.py`, the MDB controller session logic of
`src/mdb_controller.py`, and the BTCPay client status logic of
`src/btcpay_client.py`.

External I/O (serial writes, HTTP requests, the display) is modelled by an
`Env` of oracle answers for the calls a single step can make, and every
outward call made during a step is recorded in a list of `Effect`s.  Python
floats carrying prices are modelled as `ℚ` (all the comparisons performed by
the code are order comparisons on decimal amounts).  Exceptions that the
source raises and catches are modelled explicitly where they occur.
-/

namespace PowVM

/-- `VendingMachineState` enum, vending_machine.py lines 29-38. -/
inductive VMState
  | INITIALIZING
  | READY
  | VEND_REQUEST
  | PAYMENT_PENDING
  | PAYMENT_CONFIRMED
  | DISPENSING
  | ERROR
  | SHUTDOWN
deriving DecidableEq, Repr

/-- `VendState` enum, mdb_controller.py lines 25-34. -/
inductive VendState
  | DISABLED
  | ENABLED
  | SESSION_IDLE
  | VEND_REQUEST
  | VEND_APPROVED
  | VEND_DENIED
  | SESSION_COMPLETE
  | ERROR
deriving DecidableEq, Repr

/-- The `session_data` dict built by `MDBController._handle_vend_request`
(mdb_controller.py lines 294-312): item price (cents / 100.0, modelled as ℚ)
and item number. -/
structure VendRequest where
  item_price : ℚ
  item_number : ℕ
deriving DecidableEq, Repr

/-- The invoice dict returned by `BTCPayClient.create_invoice`
(btcpay_client.py lines 138-146). -/
structure Invoice where
  invoice_id : String
  amount : ℚ
  currency : String
  lightning_invoice : Option String
  status : String
deriving DecidableEq, Repr

/-- The mutable fields of `MDBController` that drive the vend-session logic:
`self.state` and `self.session_data` (an absent/empty dict is `none`). -/
structure MDB where
  state : VendState
  session_data : Option VendRequest
deriving DecidableEq, Repr

/-- `VendingConfig` (config.py lines 41-47): the configured price bounds and
currency. -/
structure VendingConfig where
  min_price : ℚ
  max_price : ℚ
  currency : String
deriving DecidableEq, Repr

/-- Outward calls observable during one step: gateway commands and display
(presentation-sink) calls, in the order the code makes them. -/
inductive Effect
  | createInvoice (amount : ℚ) (currency : String)
  | cancelInvoice (invoice_id : String)
  | denyVend
  | approveVend
  | endSession
  | armPaymentTimeout
  | showError (msg : String)
  | showMessage (line1 line2 : String)
  | showQrCode (data : String)
  | showPaymentStatus (amount : ℚ) (currency status : String)
  | showDispensing (item : String)
  | showSystemStatus
deriving DecidableEq, Repr

/-- Oracle answers for the external calls one step can make:
`create_response` is what the BTCPay POST returns for `create_invoice`
(`none` = request failed; otherwise the invoice id and the optional Lightning
destination), `invoice_status` is the `status` field returned by
`get_invoice_status` (`none` = request failed), `send_ok` is whether the MDB
serial `_send_command` succeeds, `all_healthy` is the value of
`all(self.component_status.values())` recomputed by `_check_component_status`. -/
structure Env where
  create_response : Option (String × Option String)
  invoice_status : Option String
  send_ok : Bool
  all_healthy : Bool
deriving DecidableEq, Repr

/-! ### MDB controller operations (mdb_controller.py) -/

/-- `MDBController.get_vend_request`, lines 330-334: returns a copy of the
session data while a vend request is pending, else `None`. -/
def MDB.get_vend_request (m : MDB) : Option VendRequest :=
  if m.state = VendState.VEND_REQUEST then m.session_data else none

/-- `MDBController.approve_vend`, lines 336-354: refuses (returns `False`,
no mutation) unless a vend request is pending; on a successful serial send
moves to `VEND_APPROVED`. -/
def MDB.approve_vend (m : MDB) (send_ok : Bool) : Bool × MDB :=
  if m.state ≠ VendState.VEND_REQUEST then (false, m)
  else if send_ok then (true, { m with state := VendState.VEND_APPROVED })
  else (false, m)

/-- `MDBController.deny_vend`, lines 356-374: refuses (returns `False`,
no mutation) unless a vend request is pending; on a successful serial send
moves to `VEND_DENIED`. -/
def MDB.deny_vend (m : MDB) (send_ok : Bool) : Bool × MDB :=
  if m.state ≠ VendState.VEND_REQUEST then (false, m)
  else if send_ok then (true, { m with state := VendState.VEND_DENIED })
  else (false, m)

/-- `MDBController.end_session`, lines 376-391: on a successful serial send
moves to `ENABLED` and clears the session data. -/
def MDB.end_session (m : MDB) (send_ok : Bool) : Bool × MDB :=
  if send_ok then (true, { m with state := VendState.ENABLED, session_data := none })
  else (false, m)

/-- `MDBController._handle_vend_request`, lines 294-312: the poll loop
records an observed hardware vend request and enters `VEND_REQUEST`. -/
def MDB.handle_vend_request (m : MDB) (r : VendRequest) : MDB :=
  { m with state := VendState.VEND_REQUEST, session_data := some r }

/-! ### BTCPay client operations (btcpay_client.py) -/

/-- Member lookup on the `InvoiceStatus` enum (btcpay_client.py lines 16-22).
The enum defines exactly NEW, PROCESSING, SETTLED, EXPIRED, INVALID; attribute
access for any other member name raises `AttributeError` (modelled as `none`).
`_payment_status_callback` accesses `PAID` and `CONFIRMED`, which are not
members. -/
def invoiceStatusValue : String → Option String
  | "NEW" => some "New"
  | "PROCESSING" => some "Processing"
  | "SETTLED" => some "Settled"
  | "EXPIRED" => some "Expired"
  | "INVALID" => some "Invalid"
  | _ => none

/-- `BTCPayClient.create_invoice`, lines 109-153: on a successful POST the
returned dict carries the gateway's invoice id, the requested amount and
currency, the Lightning destination (if any) and status `"New"`; on a failed
request it returns `None`. -/
def create_invoice (env : Env) (amount : ℚ) (currency : String) : Option Invoice :=
  match env.create_response with
  | none => none
  | some (id, ln) =>
      some { invoice_id := id, amount := amount, currency := currency,
             lightning_invoice := ln, status := "New" }

/-- `BTCPayClient.is_invoice_paid`, lines 243-255: true iff the status
request succeeded and the reported status string equals `"Settled"`. -/
def is_invoice_paid (env : Env) : Bool :=
  match env.invoice_status with
  | some s => decide (s = "Settled")
  | none => false

/-! ### The orchestrator (vending_machine.py)

The mutable fields of `VendingMachine` that the control flow reads:
`self.state`, `self.current_invoice`, `self.current_vend_request`, and the
embedded MDB controller state.  `generation` is ghost instrumentation only
(it appears in no guard and influences no transition): it counts completed
passes of the transaction loop, incremented on each `_reset_to_ready`, so
that generation-isolation properties about timers can be stated.  The source
has no such counter. -/
structure Machine where
  state : VMState
  current_invoice : Option Invoice
  current_vend_request : Option VendRequest
  mdb : MDB
  generation : ℕ
deriving DecidableEq, Repr

/-- `VendingMachine._reset_to_ready`, lines 365-370: clear both transaction
fields, set state `READY`, show the ready message.  Bumps the ghost
generation counter. -/
def reset_to_ready (m : Machine) : Machine × List Effect :=
  ({ m with current_invoice := none, current_vend_request := none,
            state := VMState.READY, generation := m.generation + 1 },
   [Effect.showMessage "Ready" "Bitcoin Vending Machine"])

/-- `VendingMachine._handle_ready_state`, lines 158-165: poll the MDB for a
pending vend request; if one is present, store it and enter `VEND_REQUEST`. -/
def handle_ready_state (m : Machine) : Machine × List Effect :=
  match m.mdb.get_vend_request with
  | some r => ({ m with current_vend_request := some r, state := VMState.VEND_REQUEST }, [])
  | none => (m, [])

/-- `VendingMachine._handle_vend_request_state`, lines 167-225: validate the
price against the configured bounds; out of range ⇒ deny the vend, show an
error and reset; otherwise call `create_invoice` — on failure deny and
reset, on success store the invoice, show the QR code (or a waiting status
when no Lightning destination came back), enter `PAYMENT_PENDING` and arm
the payment timeout. -/
def handle_vend_request_state (cfg : VendingConfig) (env : Env) (m : Machine) :
    Machine × List Effect :=
  match m.current_vend_request with
  | none => ({ m with state := VMState.READY }, [])
  | some req =>
    let amount := req.item_price
    if amount < cfg.min_price ∨ amount > cfg.max_price then
      let (_, mdb1) := (m.mdb).deny_vend env.send_ok
      let (m1, effs) := reset_to_ready { m with mdb := mdb1 }
      (m1, Effect.denyVend :: Effect.showError "Invalid Price" :: effs)
    else
      match create_invoice env amount cfg.currency with
      | none =>
        let (_, mdb1) := (m.mdb).deny_vend env.send_ok
        let (m1, effs) := reset_to_ready { m with mdb := mdb1 }
        (m1, Effect.createInvoice amount cfg.currency :: Effect.denyVend ::
             Effect.showError "Payment System Error" :: effs)
      | some inv =>
        let displayEff :=
          match inv.lightning_invoice with
          | some ln => Effect.showQrCode ln
          | none => Effect.showPaymentStatus amount cfg.currency "waiting"
        ({ m with current_invoice := some inv, state := VMState.PAYMENT_PENDING },
         [Effect.createInvoice amount cfg.currency, displayEff, Effect.armPaymentTimeout])

/-- `VendingMachine._handle_payment_pending_state`, lines 227-236: with no
active invoice, reset; otherwise enter `PAYMENT_CONFIRMED` exactly when
`is_invoice_paid` reports the polled status as settled. -/
def handle_payment_pending_state (env : Env) (m : Machine) : Machine × List Effect :=
  match m.current_invoice with
  | none => reset_to_ready m
  | some _ =>
    if is_invoice_paid env then ({ m with state := VMState.PAYMENT_CONFIRMED }, [])
    else (m, [])

/-- `VendingMachine._handle_payment_confirmed_state`, lines 238-258: call
`approve_vend`; on success show the paid status and enter `DISPENSING`
(when `current_invoice` is `None` the subscript `self.current_invoice['amount']`
raises `TypeError`, caught by the handler's own `except`, which shows a
system error and resets); on failure show a vending error and reset. -/
def handle_payment_confirmed_state (env : Env) (m : Machine) : Machine × List Effect :=
  let (ok, mdb1) := (m.mdb).approve_vend env.send_ok
  if ok then
    match m.current_invoice with
    | some inv =>
        ({ m with mdb := mdb1, state := VMState.DISPENSING },
         [Effect.approveVend, Effect.showPaymentStatus inv.amount inv.currency "paid"])
    | none =>
        let (m1, effs) := reset_to_ready { m with mdb := mdb1 }
        (m1, Effect.approveVend :: Effect.showError "System Error" :: effs)
  else
    let (m1, effs) := reset_to_ready { m with mdb := mdb1 }
    (m1, Effect.approveVend :: Effect.showError "Vending Error" :: effs)

/-- `VendingMachine._handle_dispensing_state`, lines 260-282: show the
dispensing message, end the MDB session, show completion and reset (when
`current_vend_request` is `None` the attribute access
`self.current_vend_request.get(...)` raises `AttributeError`, caught by the
handler's `except`, which shows a dispensing error and resets). -/
def handle_dispensing_state (env : Env) (m : Machine) : Machine × List Effect :=
  match m.current_vend_request with
  | none =>
      let (m1, effs) := reset_to_ready m
      (m1, Effect.showError "Dispensing Error" :: effs)
  | some req =>
      let (_, mdb1) := (m.mdb).end_session env.send_ok
      let (m1, effs) := reset_to_ready { m with mdb := mdb1 }
      (m1, Effect.showDispensing (toString req.item_number) :: Effect.endSession ::
           Effect.showMessage "Complete" "Thank you!" :: effs)

/-- `VendingMachine._handle_error_state`, lines 284-299: recheck component
health; fully healthy ⇒ reset to ready, else show the system status. -/
def handle_error_state (env : Env) (m : Machine) : Machine × List Effect :=
  if env.all_healthy then reset_to_ready m
  else (m, [Effect.showSystemStatus])

/-- `VendingMachine._process_state`, lines 138-156: dispatch one iteration of
the main loop on the current state (`INITIALIZING` and `SHUTDOWN` have no
handler). -/
def process_state (cfg : VendingConfig) (env : Env) (m : Machine) : Machine × List Effect :=
  match m.state with
  | VMState.READY => handle_ready_state m
  | VMState.VEND_REQUEST => handle_vend_request_state cfg env m
  | VMState.PAYMENT_PENDING => handle_payment_pending_state env m
  | VMState.PAYMENT_CONFIRMED => handle_payment_confirmed_state env m
  | VMState.DISPENSING => handle_dispensing_state env m
  | VMState.ERROR => handle_error_state env m
  | _ => (m, [])

/-- `VendingMachine._payment_expired`, lines 336-342: deny the vend, show
the expiry error and reset.  No `cancel_invoice` call appears here. -/
def payment_expired (env : Env) (m : Machine) : Machine × List Effect :=
  let (_, mdb1) := (m.mdb).deny_vend env.send_ok
  let (m1, effs) := reset_to_ready { m with mdb := mdb1 }
  (m1, Effect.denyVend :: Effect.showError "Payment Expired" :: effs)

/-- `VendingMachine._payment_failed`, lines 344-350: deny the vend, show the
failure error and reset. -/
def payment_failed (env : Env) (m : Machine) : Machine × List Effect :=
  let (_, mdb1) := (m.mdb).deny_vend env.send_ok
  let (m1, effs) := reset_to_ready { m with mdb := mdb1 }
  (m1, Effect.denyVend :: Effect.showError "Payment Failed" :: effs)

/-- The `timeout_handler` armed by `VendingMachine._start_payment_timeout`,
lines 323-334: after the payment window elapses it fires iff the machine is
then in `PAYMENT_PENDING` with an invoice set — the timer carries no
generation or transaction tag of any kind in the source. -/
def payment_timeout_fire (env : Env) (m : Machine) : Machine × List Effect :=
  if m.state = VMState.PAYMENT_PENDING ∧ m.current_invoice.isSome then
    payment_expired env m
  else (m, [])

/-- The `status_info` dict delivered to a payment callback
(built by `BTCPayClient.get_invoice_status`, lines 171-191; only the fields
the callback reads are modelled). -/
structure StatusInfo where
  invoice_id : String
  status : String
deriving DecidableEq, Repr

/-- The body of `VendingMachine._payment_status_callback`, lines 301-321, as
run inside its `try`.  Statement-for-statement translation: when
`current_invoice` is set, the membership test
`status in [InvoiceStatus.PAID.value, InvoiceStatus.CONFIRMED.value]`
evaluates the enum member accesses first, and `PAID`/`CONFIRMED` are not
members of `InvoiceStatus` (btcpay_client.py lines 16-22), so the list
construction raises `AttributeError` before any display or MDB call is made;
the later `EXPIRED`/`INVALID` branches are therefore unreachable. -/
def payment_status_callback_body (env : Env) (m : Machine) (info : StatusInfo) :
    Except String (Machine × List Effect) := do
  let status := info.status
  match m.current_invoice with
  | none => pure (m, [])
  | some inv =>
      let paidValue ← match invoiceStatusValue "PAID" with
        | some v => pure v
        | none => Except.error "AttributeError: PAID"
      let confirmedValue ← match invoiceStatusValue "CONFIRMED" with
        | some v => pure v
        | none => Except.error "AttributeError: CONFIRMED"
      if status = paidValue ∨ status = confirmedValue then
        pure (m, [Effect.showPaymentStatus inv.amount inv.currency "paid"])
      else if some status = invoiceStatusValue "EXPIRED" then
        let (m1, effs) := payment_expired env m
        pure (m1, Effect.showPaymentStatus inv.amount inv.currency "expired" :: effs)
      else if some status = invoiceStatusValue "INVALID" then
        let (m1, effs) := payment_failed env m
        pure (m1, Effect.showPaymentStatus inv.amount inv.currency "error" :: effs)
      else pure (m, [])

/-- `VendingMachine._payment_status_callback` with its outer `try/except`:
a raised exception is logged and leaves the machine untouched (no observable
call precedes the raising expression in the body, so no effect escapes). -/
def payment_status_callback (env : Env) (m : Machine) (info : StatusInfo) :
    Machine × List Effect :=
  match payment_status_callback_body env m info with
  | Except.ok r => r
  | Except.error _ => (m, [])

/-- `VendingMachine._shutdown`, lines 377-401: set state `SHUTDOWN`; cancel
the current invoice if one is set; call `deny_vend` if (and only if) the MDB
controller is still in `VEND_REQUEST`; show the shutdown message and close. -/
def shutdown (env : Env) (m : Machine) : Machine × List Effect :=
  let m1 := { m with state := VMState.SHUTDOWN }
  let cancelEffs : List Effect :=
    match m.current_invoice with
    | some inv => [Effect.cancelInvoice inv.invoice_id]
    | none => []
  if m1.mdb.state = VendState.VEND_REQUEST then
    let (_, mdb1) := (m1.mdb).deny_vend env.send_ok
    ({ m1 with mdb := mdb1 },
     cancelEffs ++ [Effect.denyVend, Effect.showMessage "Shutting Down" "Please wait..."])
  else
    (m1, cancelEffs ++ [Effect.showMessage "Shutting Down" "Please wait..."])

/-! ### Effect counting helpers -/

/-- Whether an effect is the `deny_vend` hardware call. -/
def isDenyVend : Effect → Bool
  | Effect.denyVend => true
  | _ => false

/-- Whether an effect is a `cancel_invoice` gateway call. -/
def isCancelInvoice : Effect → Bool
  | Effect.cancelInvoice _ => true
  | _ => false

/-- Whether an effect is a `create_invoice` gateway call. -/
def isCreateInvoice : Effect → Bool
  | Effect.createInvoice _ _ => true
  | _ => false

/-- Whether an effect is one of the two cleanup calls (`deny_vend` or
`cancel_invoice`). -/
def isCleanupCall (e : Effect) : Bool := isDenyVend e || isCancelInvoice e

/-- A machine whose MDB controller holds a freshly observed (pending) vend
request `r`. -/
def withPending (m : Machine) (r : VendRequest) : Machine :=
  { m with mdb := (m.mdb).handle_vend_request r }

/-! ### Theorems -/

/-- `_payment_status_callback` never changes the machine and makes no
gateway or display call: when no invoice is active the body falls through,
and when one is active the `InvoiceStatus.PAID` member access raises
`AttributeError` before any observable call, and the exception is caught. -/
lemma payment_status_callback_noop (env : Env) (m : Machine) (info : StatusInfo) :
    payment_status_callback env m info = (m, []) := by
  obtain ⟨st, inv, req, mdb, g⟩ := m
  cases inv with
  | none => rfl
  | some i => rfl

/-- `is_invoice_paid` holds exactly when the polled status is `"Settled"`. -/
lemma is_invoice_paid_iff (env : Env) :
    is_invoice_paid env = true ↔ env.invoice_status = some "Settled" := by
  cases h : env.invoice_status with
  | none => simp [is_invoice_paid, h]
  | some s => simp [is_invoice_paid, h]

/-- **C10**: the MDB controller's `approve_vend` and `deny_vend` fail safely:
if the controller is not in `VEND_REQUEST` each returns `False` and leaves
the state and session data unchanged; on success (a pending request and a
successful send) `approve_vend` moves to `VEND_APPROVED` and `deny_vend` to
`VEND_DENIED`, in both cases leaving the session data unchanged. -/
theorem c10_mdb_vend_commands_fail_safe (m : MDB) (b : Bool) :
    (m.state ≠ VendState.VEND_REQUEST →
      m.approve_vend b = (false, m) ∧ m.deny_vend b = (false, m)) ∧
    (m.state = VendState.VEND_REQUEST → b = true →
      m.approve_vend b = (true, { m with state := VendState.VEND_APPROVED }) ∧
      m.deny_vend b = (true, { m with state := VendState.VEND_DENIED })) := by
  constructor
  · intro h
    simp [MDB.approve_vend, MDB.deny_vend, h]
  · intro h hb
    subst hb
    simp [MDB.approve_vend, MDB.deny_vend, h]

/-- Witness for C10: with no pending vend request, `approve_vend` refuses and
mutates nothing; with a pending request and a working serial link,
`deny_vend` succeeds and moves to `VEND_DENIED` keeping the session data. -/
theorem c10_witness :
    MDB.approve_vend ⟨VendState.ENABLED, none⟩ true = (false, ⟨VendState.ENABLED, none⟩) ∧
    MDB.deny_vend ⟨VendState.VEND_REQUEST, some ⟨2, 1⟩⟩ true =
      (true, ⟨VendState.VEND_DENIED, some ⟨2, 1⟩⟩) := by
  refine ⟨((c10_mdb_vend_commands_fail_safe ⟨VendState.ENABLED, none⟩ true).1 (by decide)).1, ?_⟩
  exact ((c10_mdb_vend_commands_fail_safe ⟨VendState.VEND_REQUEST, some ⟨2, 1⟩⟩ true).2 rfl rfl).2

/-- **C6**: from `PAYMENT_PENDING` with an active invoice, the polled
transition to `PAYMENT_CONFIRMED` happens if and only if the payment gateway
reported the status string `"Settled"`; any other value (or a failed status
request) leaves the machine in `PAYMENT_PENDING`. -/
theorem c6_settled_sole_success_status (cfg : VendingConfig) (env : Env) (m : Machine)
    (inv : Invoice) (hst : m.state = VMState.PAYMENT_PENDING)
    (hinv : m.current_invoice = some inv) :
    (process_state cfg env m).1.state = VMState.PAYMENT_CONFIRMED ↔
      env.invoice_status = some "Settled" := by
  rw [← is_invoice_paid_iff]
  by_cases h : is_invoice_paid env <;>
    simp [process_state, hst, handle_payment_pending_state, hinv, h]

/-- Witness for C6: a settled poll answer moves a concrete pending machine to
`PAYMENT_CONFIRMED`. -/
theorem c6_witness :
    (process_state ⟨1, 100, "EUR"⟩ ⟨none, some "Settled", true, true⟩
      ⟨VMState.PAYMENT_PENDING, some ⟨"INV1", 2, "EUR", some "ln", "New"⟩, some ⟨2, 1⟩,
        ⟨VendState.VEND_REQUEST, some ⟨2, 1⟩⟩, 0⟩).1.state = VMState.PAYMENT_CONFIRMED :=
  (c6_settled_sole_success_status ⟨1, 100, "EUR"⟩ ⟨none, some "Settled", true, true⟩
    ⟨VMState.PAYMENT_PENDING, some ⟨"INV1", 2, "EUR", some "ln", "New"⟩, some ⟨2, 1⟩,
      ⟨VendState.VEND_REQUEST, some ⟨2, 1⟩⟩, 0⟩ ⟨"INV1", 2, "EUR", some "ln", "New"⟩
    rfl rfl).mpr rfl

/-- **C7**: a payment-status delivery whose invoice id does not match the
current active invoice causes no state transition, no `deny_vend`, and no
change to the stored transaction, whatever its status string.  (In the
source this holds because the callback's status branches are unreachable:
the `InvoiceStatus.PAID` access raises before them.) -/
theorem c7_mismatched_delivery_ignored (env : Env) (m : Machine) (info : StatusInfo)
    (_h : ∀ inv, m.current_invoice = some inv → info.invoice_id ≠ inv.invoice_id) :
    payment_status_callback env m info = (m, []) :=
  payment_status_callback_noop env m info

/-- Witness for C7: a late `Expired` delivery for an abandoned invoice id is
ignored on a concrete machine holding a different active invoice. -/
theorem c7_witness :
    payment_status_callback ⟨none, none, true, true⟩
      ⟨VMState.PAYMENT_PENDING, some ⟨"INV2", 3, "EUR", some "ln2", "New"⟩, some ⟨3, 2⟩,
        ⟨VendState.VEND_REQUEST, some ⟨3, 2⟩⟩, 1⟩ ⟨"INV1", "Expired"⟩ =
    (⟨VMState.PAYMENT_PENDING, some ⟨"INV2", 3, "EUR", some "ln2", "New"⟩, some ⟨3, 2⟩,
        ⟨VendState.VEND_REQUEST, some ⟨3, 2⟩⟩, 1⟩, []) := by
  apply c7_mismatched_delivery_ignored
  intro inv hinv
  cases hinv
  decide

/-- **C8**: once in `PAYMENT_CONFIRMED` or `DISPENSING`, a further `Settled`
delivery is a no-op: the callback leaves the machine unchanged with no
effects, and the state-machine step in those states never consults the
polled invoice status (its result is the same for any value of that
oracle). -/
theorem c8_settled_idempotent (cfg : VendingConfig) (env : Env) (m : Machine)
    (info : StatusInfo) (s1 s2 : Option String)
    (hst : m.state = VMState.PAYMENT_CONFIRMED ∨ m.state = VMState.DISPENSING)
    (_hs : info.status = "Settled") :
    payment_status_callback env m info = (m, []) ∧
    process_state cfg { env with invoice_status := s1 } m =
      process_state cfg { env with invoice_status := s2 } m := by
  refine ⟨payment_status_callback_noop env m info, ?_⟩
  rcases hst with h | h <;>
    simp [process_state, h, handle_payment_confirmed_state, handle_dispensing_state,
          MDB.approve_vend, MDB.end_session, reset_to_ready]

/-- Witness for C8: a duplicate `Settled` delivery on a concrete machine in
`PAYMENT_CONFIRMED` changes nothing. -/
theorem c8_witness :
    payment_status_callback ⟨none, none, true, true⟩
      ⟨VMState.PAYMENT_CONFIRMED, some ⟨"INV1", 2, "EUR", some "ln", "New"⟩, some ⟨2, 1⟩,
        ⟨VendState.VEND_REQUEST, some ⟨2, 1⟩⟩, 0⟩ ⟨"INV1", "Settled"⟩ =
    (⟨VMState.PAYMENT_CONFIRMED, some ⟨"INV1", 2, "EUR", some "ln", "New"⟩, some ⟨2, 1⟩,
        ⟨VendState.VEND_REQUEST, some ⟨2, 1⟩⟩, 0⟩, []) :=
  (c8_settled_idempotent ⟨1, 100, "EUR"⟩ ⟨none, none, true, true⟩
    ⟨VMState.PAYMENT_CONFIRMED, some ⟨"INV1", 2, "EUR", some "ln", "New"⟩, some ⟨2, 1⟩,
      ⟨VendState.VEND_REQUEST, some ⟨2, 1⟩⟩, 0⟩ ⟨"INV1", "Settled"⟩ none none
    (Or.inl rfl) rfl).1

/-- A machine mid-payment: in `PAYMENT_PENDING` with invoice `INV1` active
and the hardware session still holding the vend request. -/
def pendingMachine : Machine :=
  ⟨VMState.PAYMENT_PENDING, some ⟨"INV1", 2, "EUR", some "ln", "New"⟩, some ⟨2, 1⟩,
    ⟨VendState.VEND_REQUEST, some ⟨2, 1⟩⟩, 0⟩

/-- An environment whose serial link works and whose gateways are healthy. -/
def plainEnv : Env := ⟨none, none, true, true⟩

/-- **C2, counterexample**: on payment timeout in `PAYMENT_PENDING` with an
active invoice the code denies the vend and returns to `READY`, but makes
no `cancel_invoice` call at all — `_payment_expired` never contacts the
payment gateway, contradicting the claim that `cancelInvoice` is called. -/
theorem c2_counterexample :
    pendingMachine.state = VMState.PAYMENT_PENDING ∧
    pendingMachine.current_invoice.isSome = true ∧
    (payment_timeout_fire plainEnv pendingMachine).2.countP isCancelInvoice = 0 ∧
    (payment_timeout_fire plainEnv pendingMachine).2.countP isDenyVend = 1 ∧
    (payment_timeout_fire plainEnv pendingMachine).1.state = VMState.READY := by
  decide

/-- **C2, amended**: on payment timeout (timer fires while in
`PAYMENT_PENDING` with an active invoice) the orchestrator calls `deny_vend`
exactly once and returns to `READY` with the transaction cleared, but it
does not call `cancel_invoice` for the active invoice (the invoice is left
to expire on the gateway side). -/
theorem c2_payment_timeout_no_cancel (env : Env) (m : Machine) (inv : Invoice)
    (hst : m.state = VMState.PAYMENT_PENDING) (hinv : m.current_invoice = some inv) :
    (payment_timeout_fire env m).1.state = VMState.READY ∧
    (payment_timeout_fire env m).1.current_invoice = none ∧
    (payment_timeout_fire env m).1.current_vend_request = none ∧
    (payment_timeout_fire env m).2.countP isDenyVend = 1 ∧
    (payment_timeout_fire env m).2.countP isCancelInvoice = 0 := by
  rcases hdeny : (m.mdb).deny_vend env.send_ok with ⟨b1, mdb1⟩
  simp [payment_timeout_fire, hst, hinv, payment_expired, hdeny, reset_to_ready,
        List.countP_cons, List.countP_nil, isDenyVend, isCancelInvoice]

/-- Witness for the amended C2 at a concrete mid-payment machine. -/
theorem c2_witness :
    (payment_timeout_fire plainEnv pendingMachine).1.state = VMState.READY ∧
    (payment_timeout_fire plainEnv pendingMachine).2.countP isDenyVend = 1 :=
  ⟨(c2_payment_timeout_no_cancel plainEnv pendingMachine
      ⟨"INV1", 2, "EUR", some "ln", "New"⟩ rfl rfl).1,
   (c2_payment_timeout_no_cancel plainEnv pendingMachine
      ⟨"INV1", 2, "EUR", some "ln", "New"⟩ rfl rfl).2.2.2.1⟩

/-- A machine in `PAYMENT_CONFIRMED` whose hardware approve will fail
(the MDB controller no longer holds a vend request). -/
def confirmedNoSession : Machine :=
  ⟨VMState.PAYMENT_CONFIRMED, some ⟨"INV1", 2, "EUR", some "ln", "New"⟩, some ⟨2, 1⟩,
    ⟨VendState.ENABLED, none⟩, 0⟩

/-- **C3, counterexample**: in `PAYMENT_CONFIRMED`, when the hardware approve
command fails the machine goes back to `READY` (via
`_reset_to_ready`), not to `ERROR` as the claim states. -/
theorem c3_counterexample :
    confirmedNoSession.state = VMState.PAYMENT_CONFIRMED ∧
    (process_state ⟨1, 100, "EUR"⟩ plainEnv confirmedNoSession).1.state = VMState.READY ∧
    (process_state ⟨1, 100, "EUR"⟩ plainEnv confirmedNoSession).1.state ≠ VMState.ERROR := by
  decide

/-- **C3, amended**: in `PAYMENT_CONFIRMED`, if the hardware approve fails
(no pending request on the controller, or the serial send fails) the
orchestrator notifies the presentation sink (`show_error "Vending Error"`)
and resets to `READY` with the transaction cleared; it does not enter
`ERROR`. -/
theorem c3_approve_failure_resets (cfg : VendingConfig) (env : Env) (m : Machine)
    (hst : m.state = VMState.PAYMENT_CONFIRMED)
    (hfail : m.mdb.state ≠ VendState.VEND_REQUEST ∨ env.send_ok = false) :
    (process_state cfg env m).1.state = VMState.READY ∧
    (process_state cfg env m).1.state ≠ VMState.ERROR ∧
    (process_state cfg env m).1.current_invoice = none ∧
    (process_state cfg env m).1.current_vend_request = none ∧
    Effect.showError "Vending Error" ∈ (process_state cfg env m).2 := by
  have happrove : (m.mdb).approve_vend env.send_ok = (false, m.mdb) := by
    rcases hfail with h | h
    · simp [MDB.approve_vend, h]
    · by_cases h2 : m.mdb.state = VendState.VEND_REQUEST <;>
        simp [MDB.approve_vend, h, h2]
  simp [process_state, hst, handle_payment_confirmed_state, happrove, reset_to_ready]

/-- Witness for the amended C3 at a concrete machine with no hardware
session left to approve. -/
theorem c3_witness :
    (process_state ⟨1, 100, "EUR"⟩ plainEnv confirmedNoSession).1.state = VMState.READY ∧
    Effect.showError "Vending Error" ∈ (process_state ⟨1, 100, "EUR"⟩ plainEnv confirmedNoSession).2 :=
  ⟨(c3_approve_failure_resets ⟨1, 100, "EUR"⟩ plainEnv confirmedNoSession rfl
      (Or.inl (by decide))).1,
   (c3_approve_failure_resets ⟨1, 100, "EUR"⟩ plainEnv confirmedNoSession rfl
      (Or.inl (by decide))).2.2.2.2⟩

/-- **C9, counterexample**: shutting down from `PAYMENT_PENDING` — a non-idle
state with an active invoice and the hardware session still in
`VEND_REQUEST` — performs two cleanup calls (`cancel_invoice` and
`deny_vend`), not exactly one as the claim states. -/
theorem c9_counterexample :
    pendingMachine.state ≠ VMState.READY ∧
    (shutdown plainEnv pendingMachine).2.countP isCleanupCall = 2 ∧
    (shutdown plainEnv pendingMachine).1.state = VMState.SHUTDOWN := by
  decide

/-- **C9, amended**: a shutdown request always ends in state `SHUTDOWN`; it
performs `cancel_invoice` exactly once iff an invoice is active and
`deny_vend` exactly once iff the MDB controller is still in `VEND_REQUEST` —
each relevant cleanup exactly once, but the two can coincide (both fire when
shutting down mid-payment), so the total is not always one. -/
theorem c9_shutdown_cleanup (env : Env) (m : Machine) :
    (shutdown env m).1.state = VMState.SHUTDOWN ∧
    ((shutdown env m).2.countP isCancelInvoice =
      if m.current_invoice.isSome then 1 else 0) ∧
    ((shutdown env m).2.countP isDenyVend =
      if m.mdb.state = VendState.VEND_REQUEST then 1 else 0) := by
  cases hinv : m.current_invoice <;>
    by_cases hmdb : m.mdb.state = VendState.VEND_REQUEST <;>
      simp [shutdown, hinv, hmdb, MDB.deny_vend, isCancelInvoice, isDenyVend,
            List.countP_cons, List.countP_nil, List.countP_append]

/-! A concrete two-transaction run used to refute generation isolation
(claim C4).  Transaction 1: vend request `⟨2, 1⟩` → invoice `INV1` created
(the step that enters `PAYMENT_PENDING` arms the payment timeout, at ghost
generation 0) → settles → hardware approve fails → reset (generation 1).
Transaction 2: new vend request `⟨3, 2⟩` → invoice `INV2` created →
`PAYMENT_PENDING` at generation 1.  The stale timer armed during
transaction 1 then fires. -/

def c4cfg : VendingConfig := ⟨1, 100, "EUR"⟩
def c4envCreate1 : Env := ⟨some ("INV1", some "ln1"), none, true, true⟩
def c4envSettled : Env := ⟨none, some "Settled", true, true⟩
def c4envFail : Env := ⟨none, none, false, true⟩
def c4envCreate2 : Env := ⟨some ("INV2", some "ln2"), none, true, true⟩
def c4m0 : Machine := ⟨VMState.READY, none, none, ⟨VendState.VEND_REQUEST, some ⟨2, 1⟩⟩, 0⟩
def c4m1 : Machine := (process_state c4cfg c4envCreate1 c4m0).1
def c4m2 : Machine := (process_state c4cfg c4envCreate1 c4m1).1
def c4m3 : Machine := (process_state c4cfg c4envSettled c4m2).1
def c4m4 : Machine := (process_state c4cfg c4envFail c4m3).1
def c4m5 : Machine := { c4m4 with mdb := (c4m4.mdb).handle_vend_request ⟨3, 2⟩ }
def c4m6 : Machine := (process_state c4cfg c4envCreate2 c4m5).1
def c4m7 : Machine := (process_state c4cfg c4envCreate2 c4m6).1

/-- **C4, counterexample**: the payment timeout armed during transaction 1
(generation 0 — the arming step emits `armPaymentTimeout` from a machine at
generation 0) fires after the machine has moved on to generation 1 and is in
`PAYMENT_PENDING` for transaction 2 (invoice `INV2`); firing is not a no-op:
it changes the state (aborting transaction 2) and denies its vend, because
the source tags timers with no generation at all. -/
theorem c4_counterexample :
    c4m1.generation = 0 ∧
    Effect.armPaymentTimeout ∈ (process_state c4cfg c4envCreate1 c4m1).2 ∧
    c4m7.state = VMState.PAYMENT_PENDING ∧
    c4m7.generation = 1 ∧
    (∃ inv, c4m7.current_invoice = some inv ∧ inv.invoice_id = "INV2") ∧
    (payment_timeout_fire plainEnv c4m7).1.state ≠ c4m7.state ∧
    Effect.denyVend ∈ (payment_timeout_fire plainEnv c4m7).2 := by
  refine ⟨by decide, by decide, by decide, by decide,
    ⟨⟨"INV2", 3, "EUR", some "ln2", "New"⟩, by decide, by decide⟩, by decide, by decide⟩

/-- **C4, amended**: timers carry no generation tag; a payment-timeout timer
firing is a no-op exactly when the machine is not then in `PAYMENT_PENDING`
with an active invoice, and otherwise it denies the vend and resets —
whatever the machine's current generation, i.e. whichever transaction armed
it (so a stale timer can abort a later transaction in `PAYMENT_PENDING`). -/
theorem c4_no_generation_isolation (env : Env) (m : Machine) (g : ℕ) :
    (payment_timeout_fire env m = (m, []) ↔
      ¬(m.state = VMState.PAYMENT_PENDING ∧ m.current_invoice.isSome = true)) ∧
    ((payment_timeout_fire env { m with generation := g }).1.state =
       (payment_timeout_fire env m).1.state ∧
     (payment_timeout_fire env { m with generation := g }).2 =
       (payment_timeout_fire env m).2) := by
  rcases hdeny : (m.mdb).deny_vend env.send_ok with ⟨b1, mdb1⟩
  by_cases h : m.state = VMState.PAYMENT_PENDING ∧ m.current_invoice.isSome = true
  · obtain ⟨h1, h2⟩ := h
    simp [payment_timeout_fire, h1, h2, payment_expired, hdeny, reset_to_ready]
  · have h' : ¬({ m with generation := g }.state = VMState.PAYMENT_PENDING ∧
        { m with generation := g }.current_invoice.isSome = true) := h
    simp [payment_timeout_fire, h, h']

/-- Witness for the amended C4: a concrete machine not in `PAYMENT_PENDING`
is untouched by a firing timer, and firing on the concrete generation-1
pending machine of the trace behaves identically when its ghost generation
is rewritten, showing the generation plays no role. -/
theorem c4_witness :
    payment_timeout_fire plainEnv confirmedNoSession = (confirmedNoSession, []) ∧
    (payment_timeout_fire plainEnv { c4m7 with generation := 41 }).1.state =
      (payment_timeout_fire plainEnv c4m7).1.state :=
  ⟨(c4_no_generation_isolation plainEnv confirmedNoSession 0).1.mpr (by decide),
   (c4_no_generation_isolation plainEnv c4m7 41).2.1⟩

/-- **C5**: in `VEND_REQUEST`, a stored request priced strictly below
`min_price` or strictly above `max_price` leads to no `create_invoice` call,
exactly one `deny_vend`, and a return to `READY` with the transaction
cleared; a price within the bounds (boundaries included) proceeds to exactly
one `create_invoice` call for that amount and the configured currency. -/
theorem c5_price_bound_enforcement (cfg : VendingConfig) (env : Env) (m : Machine)
    (req : VendRequest) (hst : m.state = VMState.VEND_REQUEST)
    (hreq : m.current_vend_request = some req) :
    (req.item_price < cfg.min_price ∨ req.item_price > cfg.max_price →
      (process_state cfg env m).2.countP isCreateInvoice = 0 ∧
      (process_state cfg env m).2.countP isDenyVend = 1 ∧
      (process_state cfg env m).1.state = VMState.READY ∧
      (process_state cfg env m).1.current_invoice = none ∧
      (process_state cfg env m).1.current_vend_request = none) ∧
    (cfg.min_price ≤ req.item_price → req.item_price ≤ cfg.max_price →
      (process_state cfg env m).2.countP isCreateInvoice = 1 ∧
      Effect.createInvoice req.item_price cfg.currency ∈ (process_state cfg env m).2) := by
  rcases hdeny : (m.mdb).deny_vend env.send_ok with ⟨b1, mdb1⟩
  constructor
  · intro hout
    simp [process_state, hst, handle_vend_request_state, hreq, hout, hdeny, reset_to_ready,
          List.countP_cons, List.countP_nil, isCreateInvoice, isDenyVend]
  · intro h1 h2
    have hcond : ¬(req.item_price < cfg.min_price ∨ req.item_price > cfg.max_price) := by
      push_neg
      exact ⟨h1, h2⟩
    rcases hcr : env.create_response with _ | ⟨id, ln⟩
    · simp [process_state, hst, handle_vend_request_state, hreq, hcond, create_invoice,
            hcr, hdeny, reset_to_ready, List.countP_cons, List.countP_nil, isCreateInvoice]
    · cases ln <;>
        simp [process_state, hst, handle_vend_request_state, hreq, hcond, create_invoice,
              hcr, List.countP_cons, List.countP_nil, isCreateInvoice]

/-- Witness for C5: with bounds [1, 100], a request priced 150 is refused
with no invoice and one denial, and a request priced exactly 100 (the upper
boundary) proceeds to invoice creation. -/
theorem c5_witness :
    ((process_state ⟨1, 100, "EUR"⟩ ⟨some ("INV9", some "ln9"), none, true, true⟩
        ⟨VMState.VEND_REQUEST, none, some ⟨150, 3⟩,
          ⟨VendState.VEND_REQUEST, some ⟨150, 3⟩⟩, 0⟩).2.countP isCreateInvoice = 0 ∧
     (process_state ⟨1, 100, "EUR"⟩ ⟨some ("INV9", some "ln9"), none, true, true⟩
        ⟨VMState.VEND_REQUEST, none, some ⟨150, 3⟩,
          ⟨VendState.VEND_REQUEST, some ⟨150, 3⟩⟩, 0⟩).2.countP isDenyVend = 1) ∧
    (process_state ⟨1, 100, "EUR"⟩ ⟨some ("INV9", some "ln9"), none, true, true⟩
        ⟨VMState.VEND_REQUEST, none, some ⟨100, 4⟩,
          ⟨VendState.VEND_REQUEST, some ⟨100, 4⟩⟩, 0⟩).2.countP isCreateInvoice = 1 := by
  refine ⟨⟨?_, ?_⟩, ?_⟩
  · exact ((c5_price_bound_enforcement ⟨1, 100, "EUR"⟩
      ⟨some ("INV9", some "ln9"), none, true, true⟩
      ⟨VMState.VEND_REQUEST, none, some ⟨150, 3⟩,
        ⟨VendState.VEND_REQUEST, some ⟨150, 3⟩⟩, 0⟩ ⟨150, 3⟩ rfl rfl).1
      (Or.inr (by norm_num))).1
  · exact ((c5_price_bound_enforcement ⟨1, 100, "EUR"⟩
      ⟨some ("INV9", some "ln9"), none, true, true⟩
      ⟨VMState.VEND_REQUEST, none, some ⟨150, 3⟩,
        ⟨VendState.VEND_REQUEST, some ⟨150, 3⟩⟩, 0⟩ ⟨150, 3⟩ rfl rfl).1
      (Or.inr (by norm_num))).2.1
  · exact ((c5_price_bound_enforcement ⟨1, 100, "EUR"⟩
      ⟨some ("INV9", some "ln9"), none, true, true⟩
      ⟨VMState.VEND_REQUEST, none, some ⟨100, 4⟩,
        ⟨VendState.VEND_REQUEST, some ⟨100, 4⟩⟩, 0⟩ ⟨100, 4⟩ rfl rfl).2
      (by norm_num) (by norm_num)).1

/-- **C1**: at most one transaction is active at a time.  With a freshly
observed vend request pending on the MDB controller (`withPending`):
while the orchestrator is not in `READY` the step never stores the new
request (the stored request either stays or is cleared, never replaced by
the pending one), the step's outcome — next state, stored invoice, stored
request and emitted effects — is independent of the pending request's
content, and (outside `DISPENSING`, whose session-end clears the hardware
session) the pending request is left unconsumed on the controller; a
pending request is accepted and stored exactly when the state is `READY`,
moving to `VEND_REQUEST`. -/
theorem c1_at_most_one_active_transaction (cfg : VendingConfig) (env : Env) (m : Machine)
    (r r' : VendRequest) :
    (m.state ≠ VMState.READY →
      ((process_state cfg env (withPending m r)).1.current_vend_request = m.current_vend_request ∨
       (process_state cfg env (withPending m r)).1.current_vend_request = none) ∧
      (process_state cfg env (withPending m r)).1.state =
        (process_state cfg env (withPending m r')).1.state ∧
      (process_state cfg env (withPending m r)).1.current_invoice =
        (process_state cfg env (withPending m r')).1.current_invoice ∧
      (process_state cfg env (withPending m r)).1.current_vend_request =
        (process_state cfg env (withPending m r')).1.current_vend_request ∧
      (process_state cfg env (withPending m r)).2 =
        (process_state cfg env (withPending m r')).2 ∧
      (m.state ≠ VMState.DISPENSING →
        (process_state cfg env (withPending m r)).1.mdb.session_data = some r)) ∧
    (m.state = VMState.READY →
      (process_state cfg env (withPending m r)).1.state = VMState.VEND_REQUEST ∧
      (process_state cfg env (withPending m r)).1.current_vend_request = some r ∧
      (process_state cfg env (withPending m r)).2 = []) := by
  obtain ⟨st, inv, req, mdb, g⟩ := m
  constructor
  · intro hst
    cases st with
    | READY => exact absurd rfl hst
    | VEND_REQUEST =>
        cases req with
        | none =>
            simp [withPending, MDB.handle_vend_request, process_state,
                  handle_vend_request_state]
        | some rq =>
            by_cases hp : rq.item_price < cfg.min_price ∨ rq.item_price > cfg.max_price
            · cases hs : env.send_ok <;>
                simp [withPending, MDB.handle_vend_request, process_state,
                      handle_vend_request_state, hp, hs, MDB.deny_vend, reset_to_ready]
            · rcases hcr : env.create_response with _ | ⟨id, ln⟩
              · cases hs : env.send_ok <;>
                  simp [withPending, MDB.handle_vend_request, process_state,
                        handle_vend_request_state, hp, hcr, hs, MDB.deny_vend,
                        create_invoice, reset_to_ready]
              · cases ln <;>
                  simp [withPending, MDB.handle_vend_request, process_state,
                        handle_vend_request_state, hp, hcr, create_invoice]
    | PAYMENT_PENDING =>
        cases inv with
        | none =>
            simp [withPending, MDB.handle_vend_request, process_state,
                  handle_payment_pending_state, reset_to_ready]
        | some i =>
            by_cases hpaid : is_invoice_paid env = true <;>
              simp [withPending, MDB.handle_vend_request, process_state,
                    handle_payment_pending_state, hpaid]
    | PAYMENT_CONFIRMED =>
        cases hs : env.send_ok <;> cases inv <;>
          simp [withPending, MDB.handle_vend_request, process_state,
                handle_payment_confirmed_state, MDB.approve_vend, hs, reset_to_ready]
    | DISPENSING =>
        cases req with
        | none =>
            simp [withPending, MDB.handle_vend_request, process_state,
                  handle_dispensing_state, reset_to_ready]
        | some rq =>
            cases hs : env.send_ok <;>
              simp [withPending, MDB.handle_vend_request, process_state,
                    handle_dispensing_state, MDB.end_session, hs, reset_to_ready]
    | ERROR =>
        by_cases hh : env.all_healthy = true <;>
          simp [withPending, MDB.handle_vend_request, process_state,
                handle_error_state, hh, reset_to_ready]
    | INITIALIZING =>
        simp [withPending, MDB.handle_vend_request, process_state]
    | SHUTDOWN =>
        simp [withPending, MDB.handle_vend_request, process_state]
  · intro hst
    cases st <;>
      simp_all [withPending, MDB.handle_vend_request, process_state, handle_ready_state,
                MDB.get_vend_request]

/-- Witness for C1: acceptance from `READY` on a concrete machine, and
refusal (stored request untouched) from a concrete machine mid-payment. -/
theorem c1_witness :
    (process_state ⟨1, 100, "EUR"⟩ plainEnv
        (withPending ⟨VMState.READY, none, none, ⟨VendState.ENABLED, none⟩, 0⟩ ⟨3, 2⟩)).1.state =
      VMState.VEND_REQUEST ∧
    ((process_state ⟨1, 100, "EUR"⟩ plainEnv
        (withPending pendingMachine ⟨3, 2⟩)).1.current_vend_request =
          pendingMachine.current_vend_request ∨
     (process_state ⟨1, 100, "EUR"⟩ plainEnv
        (withPending pendingMachine ⟨3, 2⟩)).1.current_vend_request = none) :=
  ⟨((c1_at_most_one_active_transaction ⟨1, 100, "EUR"⟩ plainEnv
      ⟨VMState.READY, none, none, ⟨VendState.ENABLED, none⟩, 0⟩ ⟨3, 2⟩ ⟨3, 2⟩).2 rfl).1,
   ((c1_at_most_one_active_transaction ⟨1, 100, "EUR"⟩ plainEnv
      pendingMachine ⟨3, 2⟩ ⟨3, 2⟩).1 (by decide)).1⟩

end PowVM
